import Mathlib

/-!
Shallow embedding of the `vpc-setup` repository (src/lib/vpc-setup-stack.ts),
a single AWS CDK stack that declares a VPC with a three-entry subnet
configuration, an S3 log bucket, a flow-log role and flow log, two gateway
endpoints and one CloudFormation output.  Each structure below mirrors the
property bag the source passes to the corresponding CDK construct; enum
values mirror the CDK enum members the source names.  Durations are carried
in days (the source writes Duration.days n).
-/

namespace VpcSetup

/-- Subnet tier type, mirroring the members of ec2.SubnetType used by the
source (PUBLIC, PRIVATE, ISOLATED). -/
inductive SubnetType where
  | PUBLIC
  | PRIVATE
  | ISOLATED
deriving DecidableEq, Repr

/-- One entry of the subnetConfiguration array passed to ec2.Vpc:
a tier name, a tier type and a CIDR mask length. -/
structure SubnetConfiguration where
  name : String
  subnetType : SubnetType
  cidrMask : Nat
deriving DecidableEq, Repr

/-- The subnetConfiguration array the source passes to ec2.Vpc
(src/lib/vpc-setup-stack.ts lines 35-51), transcribed literally: note that
the third (ISOLATED) entry reuses the name of the first (PUBLIC) entry. -/
def subnetConfiguration : List SubnetConfiguration :=
  [ { name := "public-subnet", subnetType := .PUBLIC, cidrMask := 24 },
    { name := "private-subnet", subnetType := .PRIVATE, cidrMask := 24 },
    { name := "public-subnet", subnetType := .ISOLATED, cidrMask := 24 } ]

/-- The VPC declaration: construct id and the subnet configuration. -/
structure VpcDecl where
  constructId : String
  subnetConfiguration : List SubnetConfiguration
deriving DecidableEq, Repr

/-- A subnet produced by expanding the subnet configuration over the
availability zones, as the CDK Vpc construct does: its construct id, tier
type, zone index, and its address range [addrStart, addrStart + addrSize)
inside the address space of the VPC. -/
structure Subnet where
  constructId : String
  subnetType : SubnetType
  az : Nat
  addrStart : Nat
  addrSize : Nat
deriving DecidableEq, Repr

/-- CDK names each subnet construct from its tier name and 1-based zone
index (function subnetId in aws-cdk-lib/aws-ec2/lib/vpc.ts). -/
def subnetId (name : String) (i : Nat) : String :=
  name ++ "Subnet" ++ toString (i + 1)

/-- Expansion of the subnet configuration: for each entry, one subnet per
availability zone, with consecutive address blocks of size 2^(32 - mask)
allocated from the start of the VPC address space, as the CDK CIDR
allocator does.  `base` is the next free address offset. -/
def mkSubnets : List SubnetConfiguration → Nat → Nat → List Subnet
  | [], _, _ => []
  | c :: rest, azs, base =>
      let size := 2 ^ (32 - c.cidrMask)
      ((List.range azs).map fun i =>
        { constructId := subnetId c.name i
          subnetType := c.subnetType
          az := i
          addrStart := base + i * size
          addrSize := size })
      ++ mkSubnets rest azs (base + azs * size)

/-- Subnet creation as performed when the stack is synthesised: the
configuration is expanded over the zones, and the constructs library
rejects the result when two subnets receive the same construct id
(Node.addChild in the constructs library throws on a duplicate child id;
the CDK message is of the form: There is already a Construct with name X). -/
def createSubnets (configs : List SubnetConfiguration) (azs : Nat) :
    Except String (List Subnet) :=
  let subs := mkSubnets configs azs 0
  if (subs.map Subnet.constructId).Nodup then .ok subs
  else .error "duplicate construct id"

/-- Modelled from the spec: the three-tier list the spec describes
(sections 4.1 and 8), one public, one private and one isolated tier with
pairwise distinct tier names, each with a /24 mask.  Used only to compare
the declared configuration against the intent of the spec. -/
def specTierConfiguration : List SubnetConfiguration :=
  [ { name := "public-subnet", subnetType := .PUBLIC, cidrMask := 24 },
    { name := "private-subnet", subnetType := .PRIVATE, cidrMask := 24 },
    { name := "isolated-subnet", subnetType := .ISOLATED, cidrMask := 24 } ]

/-- Two subnets have disjoint (non-overlapping) address ranges. -/
def rangesDisjoint (s t : Subnet) : Prop :=
  s.addrStart + s.addrSize ≤ t.addrStart ∨ t.addrStart + t.addrSize ≤ s.addrStart

instance (s t : Subnet) : Decidable (rangesDisjoint s t) := by
  unfold rangesDisjoint; infer_instance

/-- All address ranges in a subnet list are pairwise disjoint. -/
def pairwiseDisjoint (l : List Subnet) : Prop :=
  l.Pairwise rangesDisjoint

instance (l : List Subnet) : Decidable (pairwiseDisjoint l) := by
  unfold pairwiseDisjoint; infer_instance

/-- The four flags of the s3.BlockPublicAccess setting. -/
structure BlockPublicAccess where
  blockPublicAcls : Bool
  blockPublicPolicy : Bool
  ignorePublicAcls : Bool
  restrictPublicBuckets : Bool
deriving DecidableEq, Repr

/-- s3.BlockPublicAccess.BLOCK_ALL: all four flags enabled. -/
def BlockPublicAccess.BLOCK_ALL : BlockPublicAccess :=
  { blockPublicAcls := true
    blockPublicPolicy := true
    ignorePublicAcls := true
    restrictPublicBuckets := true }

/-- Canned bucket access control, mirroring s3.BucketAccessControl. -/
inductive BucketAccessControl where
  | PRIVATE
  | LOG_DELIVERY_WRITE
  | PUBLIC_READ
  | AUTHENTICATED_READ
deriving DecidableEq, Repr

/-- At-rest bucket encryption mode, mirroring s3.BucketEncryption. -/
inductive BucketEncryption where
  | UNENCRYPTED
  | S3_MANAGED
  | KMS_MANAGED
  | KMS
deriving DecidableEq, Repr

/-- One entry of intelligentTieringConfigurations; the tier times are in
days (the source writes Duration.days 90 and Duration.days 180). -/
structure IntelligentTieringConfiguration where
  name : String
  archiveAccessTierTime : Nat
  deepArchiveAccessTierTime : Nat
deriving DecidableEq, Repr

/-- The property bag the source passes to the s3.Bucket construct. -/
structure Bucket where
  constructId : String
  blockPublicAccess : BlockPublicAccess
  enforceSSL : Bool
  versioned : Bool
  accessControl : BucketAccessControl
  encryption : BucketEncryption
  intelligentTieringConfigurations : List IntelligentTieringConfiguration
deriving DecidableEq, Repr

/-- An IAM principal; the source uses only a service principal. -/
inductive Principal where
  | servicePrincipal (service : String)
  | accountPrincipal (account : String)
deriving DecidableEq, Repr

/-- The property bag the source passes to the iam.Role construct: the
single principal of the assume-role trust policy. -/
structure Role where
  constructId : String
  assumedBy : Principal
deriving DecidableEq, Repr

/-- The principals the trust policy of a CDK role permits to assume it:
the Role construct places exactly its assumedBy principal in the
assume-role policy document. -/
def Role.trustedPrincipals (r : Role) : List Principal :=
  [r.assumedBy]

/-- The kind of bucket grant the source requests; bucket.grantWrite grants
write actions only (PutObject, DeleteObject, Abort), no read actions. -/
inductive GrantKind where
  | read
  | write
  | readWrite
  | put
deriving DecidableEq, Repr

/-- Whether a grant kind includes any read action. -/
def GrantKind.grantsRead : GrantKind → Bool
  | .read => true
  | .readWrite => true
  | _ => false

/-- A bucket grant issued by the stack: grantee role construct id, grant
kind, and the objectsKeyPattern argument scoping the object resources. -/
structure Grant where
  grantee : String
  kind : GrantKind
  objectsKeyPattern : String
deriving DecidableEq, Repr

/-- Flow-log traffic filter, mirroring ec2.FlowLogTrafficType. -/
inductive FlowLogTrafficType where
  | ACCEPT
  | ALL
  | REJECT
deriving DecidableEq, Repr

/-- The resource a flow log is bound to, mirroring ec2.FlowLogResourceType. -/
inductive FlowLogResourceType where
  | fromVpc (vpcConstructId : String)
  | fromSubnet (subnetConstructId : String)
  | fromNetworkInterface (eniId : String)
deriving DecidableEq, Repr

/-- An S3 flow-log destination as built by FlowLogDestination.toS3: the
bucket construct id and the key path (the keyPrefix argument). -/
structure FlowLogDestinationS3 where
  bucket : String
  s3KeyPath : String
deriving DecidableEq, Repr

/-- The property bag the source passes to the ec2.FlowLog construct. -/
structure FlowLog where
  constructId : String
  destination : FlowLogDestinationS3
  trafficType : FlowLogTrafficType
  flowLogName : String
  resourceType : FlowLogResourceType
deriving DecidableEq, Repr

/-- The gateway-endpoint services the source references,
mirroring ec2.GatewayVpcEndpointAwsService. -/
inductive GatewayVpcEndpointAwsService where
  | DYNAMODB
  | S3
deriving DecidableEq, Repr

/-- A gateway endpoint added with vpc.addGatewayEndpoint: its construct id,
the VPC it is attached to, and the target service.  The CDK option bag for
a gateway endpoint carries no inbound (ingress) configuration at all; the
source sets only the service. -/
structure GatewayEndpoint where
  constructId : String
  attachedTo : String
  service : GatewayVpcEndpointAwsService
deriving DecidableEq, Repr

/-- The value a CloudFormation output publishes. -/
inductive OutputValue where
  | vpcId (vpcConstructId : String)
  | securityGroupId (sgConstructId : String)
  | bucketName (bucketConstructId : String)
deriving DecidableEq, Repr

/-- Whether an output value is a security-group identifier. -/
def OutputValue.isSecurityGroupId : OutputValue → Bool
  | .securityGroupId _ => true
  | _ => false

/-- A CfnOutput declaration: construct id, export name and value. -/
structure CfnOutput where
  constructId : String
  exportName : String
  value : OutputValue
deriving DecidableEq, Repr

/-- A rule of a security group (peer and whether it is an inbound rule). -/
structure SecurityGroupRule where
  peer : String
  inbound : Bool
deriving DecidableEq, Repr

/-- A security group declaration: the stack under src declares none, but
the type is needed to state what the stack does (and does not) declare. -/
structure SecurityGroup where
  constructId : String
  ingressRules : List SecurityGroupRule
  egressRules : List SecurityGroupRule
deriving DecidableEq, Repr

/-- The stack props the constructor forwards to the Stack base class; they
do not influence any resource declaration. -/
structure StackProps where
  stackName : Option String := none
deriving DecidableEq, Repr

/-- The full resource graph declared by one evaluation of the
VpcSetupStack constructor (src/lib/vpc-setup-stack.ts lines 8-145),
transcribed declaration by declaration.  The source declares no security
group: its closing comments note that the default security group of the
VPC cannot be modified by CDK and is tightened by an external tool. -/
structure VpcSetupStackDecl where
  props : StackProps
  vpc : VpcDecl
  s3LogBucket : Bucket
  vpcFlowLogRole : Role
  grants : List Grant
  flowLogs : List FlowLog
  gatewayEndpoints : List GatewayEndpoint
  securityGroups : List SecurityGroup
  outputs : List CfnOutput
deriving DecidableEq, Repr

/-- One evaluation of the VpcSetupStack constructor. -/
def vpcSetupStack (props : StackProps) : VpcSetupStackDecl :=
  { props := props
    vpc := { constructId := "VPC", subnetConfiguration := subnetConfiguration }
    s3LogBucket :=
      { constructId := "s3LogBucket"
        blockPublicAccess := BlockPublicAccess.BLOCK_ALL
        enforceSSL := true
        versioned := true
        accessControl := .LOG_DELIVERY_WRITE
        encryption := .S3_MANAGED
        intelligentTieringConfigurations :=
          [ { name := "archive"
              archiveAccessTierTime := 90
              deepArchiveAccessTierTime := 180 } ] }
    vpcFlowLogRole :=
      { constructId := "vpcFlowLogRole"
        assumedBy := .servicePrincipal "vpc-flow-logs.amazonaws.com" }
    grants :=
      [ { grantee := "vpcFlowLogRole"
          kind := .write
          objectsKeyPattern := "sharedVpcFlowLogs/*" } ]
    flowLogs :=
      [ { constructId := "sharedVpcLowLogs"
          destination := { bucket := "s3LogBucket", s3KeyPath := "sharedVpcFlowLogs/" }
          trafficType := .ALL
          flowLogName := "sharedVpcFlowLogs"
          resourceType := .fromVpc "VPC" } ]
    gatewayEndpoints :=
      [ { constructId := "dynamoDBEndpoint", attachedTo := "VPC", service := .DYNAMODB },
        { constructId := "s3Endpoint", attachedTo := "VPC", service := .S3 } ]
    securityGroups := []
    outputs :=
      [ { constructId := "sharedVpcId"
          exportName := "shared-vpc-id"
          value := .vpcId "VPC" } ] }

/-- The subnets the spec-intended three-tier configuration expands to over
two availability zones. -/
def specSubnets : List Subnet :=
  mkSubnets specTierConfiguration 2 0

/-- C1 counterexample: the stack declares no security group at all, and its
only output publishes the VPC identifier — so no security group with empty
inbound rules and all-destinations outbound is created or exported. -/
theorem no_security_group_declared :
    (vpcSetupStack ⟨none⟩).securityGroups = []
    ∧ (vpcSetupStack ⟨none⟩).outputs.map CfnOutput.value = [OutputValue.vpcId "VPC"] :=
  ⟨rfl, rfl⟩

/-- C1 (amended): in every evaluation, the configuration unit declares no
security group and publishes no security-group identifier; per the closing
comments of the source, the default security group of the VPC is left to an
external tool. -/
theorem security_group_never_declared : ∀ p : StackProps,
    (vpcSetupStack p).securityGroups = []
    ∧ ((vpcSetupStack p).outputs.filter fun o => o.value.isSecurityGroupId) = [] :=
  fun _ => ⟨rfl, rfl⟩

/-- C2 counterexample: the stack declares exactly one CloudFormation
output, not two. -/
theorem outputs_singleton :
    (vpcSetupStack ⟨none⟩).outputs.length = 1 :=
  rfl

/-- C2 (amended): in every evaluation, the unit publishes exactly one
identifier for cross-unit reference — the VPC identifier, under the stable
export name shared-vpc-id. -/
theorem outputs_exactly_vpc_id : ∀ p : StackProps,
    (vpcSetupStack p).outputs =
      [ { constructId := "sharedVpcId"
          exportName := "shared-vpc-id"
          value := .vpcId "VPC" } ] :=
  fun _ => rfl

/-- C3: with the declared subnet configuration, expanding over 2 zones does
not produce 6 subnets: the PUBLIC and ISOLATED entries share the name
public-subnet, so their subnet construct ids collide and synthesis fails
with a duplicate-construct error.  With the distinctly named three-tier
list of the spec, the same expansion yields exactly 6 subnets, 2 per tier,
with pairwise non-overlapping address ranges. -/
theorem createSubnets_duplicate_construct_error :
    createSubnets subnetConfiguration 2 = .error "duplicate construct id"
    ∧ createSubnets specTierConfiguration 2 = .ok specSubnets
    ∧ specSubnets.length = 6
    ∧ (specSubnets.filter fun s => s.subnetType = SubnetType.PUBLIC).length = 2
    ∧ (specSubnets.filter fun s => s.subnetType = SubnetType.PRIVATE).length = 2
    ∧ (specSubnets.filter fun s => s.subnetType = SubnetType.ISOLATED).length = 2
    ∧ pairwiseDisjoint specSubnets :=
  ⟨rfl, rfl, rfl, by decide, by decide, by decide, by decide⟩

/-- C4: the declared log bucket simultaneously blocks all public access,
enforces SSL transport, enables versioning and enables at-rest encryption,
in every evaluation of the unit. -/
theorem log_bucket_four_policies : ∀ p : StackProps,
    (vpcSetupStack p).s3LogBucket.blockPublicAccess = BlockPublicAccess.BLOCK_ALL
    ∧ (vpcSetupStack p).s3LogBucket.enforceSSL = true
    ∧ (vpcSetupStack p).s3LogBucket.versioned = true
    ∧ (vpcSetupStack p).s3LogBucket.encryption = BucketEncryption.S3_MANAGED :=
  fun _ => ⟨rfl, rfl, rfl, rfl⟩

/-- C5: the tiering policy of the log bucket moves objects to the archive
access tier after exactly 90 days and to the deep-archive access tier after
exactly 180 days. -/
theorem log_bucket_tiering_dwell_times : ∀ p : StackProps,
    (vpcSetupStack p).s3LogBucket.intelligentTieringConfigurations =
      [ { name := "archive"
          archiveAccessTierTime := 90
          deepArchiveAccessTierTime := 180 } ] :=
  fun _ => rfl

/-- C6: the flow-log role is trusted exclusively by the
vpc-flow-logs.amazonaws.com service principal, and the only grant the
stack issues is a write grant to that role scoped exactly to the object
key pattern sharedVpcFlowLogs/*; a write grant includes no read action. -/
theorem flow_log_role_trust_and_scope : ∀ p : StackProps,
    Role.trustedPrincipals (vpcSetupStack p).vpcFlowLogRole
        = [Principal.servicePrincipal "vpc-flow-logs.amazonaws.com"]
    ∧ (vpcSetupStack p).grants =
        [ { grantee := "vpcFlowLogRole"
            kind := GrantKind.write
            objectsKeyPattern := "sharedVpcFlowLogs/*" } ]
    ∧ GrantKind.grantsRead GrantKind.write = false :=
  fun _ => ⟨rfl, rfl, rfl⟩

/-- C7: the declared flow log is bound to the VPC, filters all traffic
(not accept-only or reject-only), writes to the log bucket under the key
path sharedVpcFlowLogs/, and that path plus the wildcard is exactly the
object key pattern the write grant of the role is scoped to. -/
theorem flow_log_binding_and_destination : ∀ p : StackProps,
    (vpcSetupStack p).flowLogs =
      [ { constructId := "sharedVpcLowLogs"
          destination := { bucket := "s3LogBucket", s3KeyPath := "sharedVpcFlowLogs/" }
          trafficType := FlowLogTrafficType.ALL
          flowLogName := "sharedVpcFlowLogs"
          resourceType := FlowLogResourceType.fromVpc "VPC" } ]
    ∧ (vpcSetupStack p).vpc.constructId = "VPC"
    ∧ ((vpcSetupStack p).flowLogs.map fun f => f.destination.s3KeyPath ++ "*")
        = (vpcSetupStack p).grants.map Grant.objectsKeyPattern :=
  fun _ => ⟨rfl, rfl, rfl⟩

/-- C8: the unit declares exactly two gateway endpoints, one for DynamoDB
and one for S3, each attached to the VPC; the declaration carries only the
target service, so no inbound configuration exists for them. -/
theorem gateway_endpoints_two_services : ∀ p : StackProps,
    (vpcSetupStack p).gatewayEndpoints =
      [ { constructId := "dynamoDBEndpoint", attachedTo := "VPC", service := .DYNAMODB },
        { constructId := "s3Endpoint", attachedTo := "VPC", service := .S3 } ]
    ∧ (vpcSetupStack p).gatewayEndpoints.length = 2
    ∧ ((vpcSetupStack p).gatewayEndpoints.map GatewayEndpoint.service)
        = [GatewayVpcEndpointAwsService.DYNAMODB, GatewayVpcEndpointAwsService.S3]
    ∧ ([GatewayVpcEndpointAwsService.DYNAMODB, GatewayVpcEndpointAwsService.S3]
        : List GatewayVpcEndpointAwsService).Nodup :=
  fun _ => ⟨rfl, rfl, rfl, by decide⟩

/-- C9: the declared tier names are not pairwise distinct: the third entry
of the subnet configuration has type ISOLATED but is named public-subnet,
the same name as the first (PUBLIC) entry, and no entry carries an
isolated-matching name. -/
theorem subnet_tier_names_duplicated :
    ((vpcSetupStack ⟨none⟩).vpc.subnetConfiguration.map SubnetConfiguration.name)
        = ["public-subnet", "private-subnet", "public-subnet"]
    ∧ ¬ ((vpcSetupStack ⟨none⟩).vpc.subnetConfiguration.map SubnetConfiguration.name).Nodup
    ∧ (∃ c ∈ (vpcSetupStack ⟨none⟩).vpc.subnetConfiguration,
          c.subnetType = SubnetType.ISOLATED ∧ c.name = "public-subnet")
    ∧ (∀ c ∈ (vpcSetupStack ⟨none⟩).vpc.subnetConfiguration, c.name ≠ "isolated-subnet") := by
  decide

/-- C10: beyond the four stated policies, the log bucket sets its canned
access control to LOG_DELIVERY_WRITE in every evaluation of the unit. -/
theorem log_bucket_access_control_log_delivery : ∀ p : StackProps,
    (vpcSetupStack p).s3LogBucket.accessControl = BucketAccessControl.LOG_DELIVERY_WRITE :=
  fun _ => rfl

end VpcSetup
